import Mathlib

/-!
Shallow embedding of `src/web-services/python-api/app.py` (Flask service
with PostgreSQL/Redis dependency probing, Prometheus metrics, and a
fire-and-forget background task), together with theorems settling the
frozen claims about it.

External effects (psycopg2.connect, redis ping/set/get/setex, the wall
clock, the environment) are passed in as explicit outcome parameters, so
each Python function becomes a total Lean function on an explicit
application state.
-/

namespace PyApi

/-- `os.getenv(key, default)`: the process environment as a partial map. -/
def getenv (env : String → Option String) (key dflt : String) : String :=
  (env key).getD dflt

/-- The psycopg2 connection object produced by `psycopg2.connect(...)`
    (app.py lines 40-46): we record the parameters it was opened with. -/
structure PgConn where
  host : String
  database : String
  user : String
  password : String
  port : Nat
deriving DecidableEq, Repr

/-- The redis client object produced by `redis.Redis(...)`
    (app.py lines 61-65). -/
structure RedisClient where
  host : String
  port : Nat
  decode_responses : Bool
deriving DecidableEq, Repr

/-- `network_data['service_health']` (app.py lines 26-29): one Python bool
    per dependency. -/
structure ServiceHealth where
  postgres : Bool
  redis : Bool
deriving DecidableEq, Repr

/-- The `network_data` module-level dict (app.py lines 22-30); `start_time`
    is a wall-clock value irrelevant to the claims and is omitted. -/
structure NetworkData where
  request_count : Nat
  unique_clients : Finset String
  service_health : ServiceHealth
deriving DecidableEq

/-- Identity of one `http_requests_total` counter child: the label values
    passed in `REQUEST_COUNT.labels(...)` (app.py lines 92-96). -/
structure CounterLabels where
  method : String
  endpoint : String
  status : Nat
deriving DecidableEq, Repr

/-- The four Prometheus metric objects declared at app.py lines 16-19.
    `http_requests_total` maps a label identity to its counter value;
    `duration_observations` is the list of values ever observed into the
    `http_request_duration_seconds` histogram (the source declares the
    histogram at line 17 and never observes into it);
    `database_connections` maps the `database` label to the gauge value. -/
structure Metrics where
  http_requests_total : CounterLabels → Nat
  duration_observations : List Nat
  active_connections : Int
  database_connections : String → Int

/-- Whole module-level mutable state of app.py: `network_data`,
    `postgres_conn`, `redis_client` (lines 22-34), the Prometheus
    registry, and the log of key/ttl/value writes the process has pushed
    into the external redis cache (`set`/`setex` calls that succeeded). -/
structure AppState where
  network_data : NetworkData
  postgres_conn : Option PgConn
  redis_client : Option RedisClient
  metrics : Metrics
  cache_writes : List (String × Nat × String)

/-- Module-level initial values (app.py lines 16-34): counts at zero, no
    clients seen, both health flags False, both connections None. -/
def initialState : AppState :=
  { network_data :=
      { request_count := 0
        unique_clients := ∅
        service_health := { postgres := false, redis := false } }
    postgres_conn := none
    redis_client := none
    metrics :=
      { http_requests_total := fun _ => 0
        duration_observations := []
        active_connections := 0
        database_connections := fun _ => 0 }
    cache_writes := [] }

/-- `DATABASE_CONNECTIONS.labels(database=db).set(v)` (app.py lines 48/54/69/75). -/
def set_db_gauge (m : Metrics) (db : String) (v : Int) : Metrics :=
  { m with database_connections := fun d => if d = db then v else m.database_connections d }

/-- `REQUEST_COUNT.labels(method=..., endpoint=..., status=...).inc()`
    (app.py lines 92-96). -/
def inc_counter (m : Metrics) (l : CounterLabels) : Metrics :=
  { m with http_requests_total :=
      fun l2 => if l2 = l then m.http_requests_total l + 1 else m.http_requests_total l2 }

/-- Whether the external `psycopg2.connect` call succeeds or raises. -/
inductive PgOutcome where
  | ok
  | raise (msg : String)
deriving DecidableEq, Repr

/-- Outcome of the two external calls inside `connect_redis`'s try block:
    the `redis.Redis(...)` constructor, then `redis_client.ping()`
    (app.py lines 61-67). -/
inductive RedisOutcome where
  | ok
  | ctor_raise (msg : String)
  | ping_raise (msg : String)
deriving DecidableEq, Repr

/-- The connection object `psycopg2.connect(...)` yields on success, built
    from the environment exactly as at app.py lines 40-46. -/
def pg_conn_of_env (env : String → Option String) : PgConn :=
  { host := getenv env "POSTGRES_HOST" "localhost"
    database := getenv env "POSTGRES_DB" "appdb"
    user := getenv env "POSTGRES_USER" "user"
    password := getenv env "POSTGRES_PASSWORD" "password"
    port := 5432 }

/-- The client object `redis.Redis(...)` yields, built exactly as at
    app.py lines 61-65. -/
def redis_client_of_env (env : String → Option String) : RedisClient :=
  { host := getenv env "REDIS_HOST" "localhost"
    port := 6379
    decode_responses := true }

/-- `connect_postgres()` (app.py lines 36-55).  The whole body is wrapped
    in try/except Exception, so the function is total: on success it
    assigns the global connection, sets the health flag True and the gauge
    to 1 and returns True; on a raise it leaves `postgres_conn` untouched
    (the exception fires inside `psycopg2.connect`, before the
    assignment), sets the health flag False and the gauge to 0 and
    returns False. -/
def connect_postgres (env : String → Option String) (outcome : PgOutcome)
    (s : AppState) : Bool × AppState :=
  match outcome with
  | .ok =>
      (true,
        { s with
          postgres_conn := some (pg_conn_of_env env)
          network_data := { s.network_data with
            service_health := { s.network_data.service_health with postgres := true } }
          metrics := set_db_gauge s.metrics "postgres" 1 })
  | .raise _ =>
      (false,
        { s with
          network_data := { s.network_data with
            service_health := { s.network_data.service_health with postgres := false } }
          metrics := set_db_gauge s.metrics "postgres" 0 })

/-- `connect_redis()` (app.py lines 57-76).  Total for the same reason.
    The constructor assignment happens before `ping()`: if the ping
    raises, `redis_client` keeps the freshly constructed object while the
    health flag is set False and the gauge to 0. -/
def connect_redis (env : String → Option String) (outcome : RedisOutcome)
    (s : AppState) : Bool × AppState :=
  match outcome with
  | .ok =>
      (true,
        { s with
          redis_client := some (redis_client_of_env env)
          network_data := { s.network_data with
            service_health := { s.network_data.service_health with redis := true } }
          metrics := set_db_gauge s.metrics "redis" 1 })
  | .ctor_raise _ =>
      (false,
        { s with
          network_data := { s.network_data with
            service_health := { s.network_data.service_health with redis := false } }
          metrics := set_db_gauge s.metrics "redis" 0 })
  | .ping_raise _ =>
      (false,
        { s with
          redis_client := some (redis_client_of_env env)
          network_data := { s.network_data with
            service_health := { s.network_data.service_health with redis := false } }
          metrics := set_db_gauge s.metrics "redis" 0 })

/-- `before_request()` (app.py lines 78-87): bump the request count, add
    the client identifier to the unique-client set, increment the
    active-connections gauge. -/
def before_request (client_ip : String) (s : AppState) : AppState :=
  { s with
    network_data := { s.network_data with
      request_count := s.network_data.request_count + 1
      unique_clients := insert client_ip s.network_data.unique_clients }
    metrics := { s.metrics with
      active_connections := s.metrics.active_connections + 1 } }

/-- `after_request(response)` (app.py lines 89-99): increment the request
    counter labeled by method/endpoint/status, decrement the
    active-connections gauge.  Nothing is observed into the duration
    histogram. -/
def after_request (method endpoint : String) (status : Nat) (s : AppState) : AppState :=
  let m := inc_counter s.metrics { method := method, endpoint := endpoint, status := status }
  { s with metrics := { m with active_connections := m.active_connections - 1 } }

/-- The JSON document `/health` returns (app.py lines 101-109);
    `timestamp` and `python_version` carry no claim content. -/
structure HealthResponse where
  status : String
  services : ServiceHealth
deriving DecidableEq, Repr

/-- `health_check()` (app.py lines 101-109): the `status` field is the
    literal string `'healthy'`; the per-dependency flags are returned
    verbatim under `services`. -/
def health_check (s : AppState) : HealthResponse :=
  { status := "healthy", services := s.network_data.service_health }

/-- Per-dependency result of `/api/network-test` (app.py lines 182-218):
    the `'status'` field of each entry of `test_results`. -/
inductive TestStatus where
  | connected
  | error (msg : String)
  | not_connected
deriving DecidableEq, Repr

/-- The document `/api/network-test` returns, plus an instrumentation
    field: `reconnect_attempts` counts how many times the handler invoked
    `connect_postgres` or `connect_redis` while producing the response.
    The source body (app.py lines 176-226) contains no such call, so the
    handler always reports 0. -/
structure NetworkTestResponse where
  postgres : TestStatus
  redis : TestStatus
  external_ok : Bool
  reconnect_attempts : Nat
deriving DecidableEq, Repr

/-- `network_test()` (app.py lines 176-226).  `pg_query` is the outcome of
    the `SELECT version(), current_timestamp` round trip, `redis_probe`
    the outcome of the set/get/info sequence, `ext_ok` the outcome of
    `test_external_connectivity`, `now` the value of `int(time.time())`.
    Each dependency branch runs only when the stored handle is non-None
    (`if postgres_conn:` / `if redis_client:`); on an exception it reports
    status `'error'`, otherwise `'connected'`; with no handle it reports
    `'not_connected'` immediately.  The successful redis probe performs
    `redis_client.set(test_key, "test_value", ex=60)`, logged as a cache
    write.  No branch reconnects or mutates the module state. -/
def network_test (now : Nat) (pg_query : Except String Unit)
    (redis_probe : Except String Unit) (ext_ok : Bool)
    (s : AppState) : NetworkTestResponse × AppState :=
  let pg : TestStatus :=
    match s.postgres_conn with
    | some _ => match pg_query with
      | .ok _ => .connected
      | .error e => .error e
    | none => .not_connected
  let rd : TestStatus :=
    match s.redis_client with
    | some _ => match redis_probe with
      | .ok _ => .connected
      | .error e => .error e
    | none => .not_connected
  let s2 :=
    match s.redis_client, redis_probe with
    | some _, .ok _ =>
        { s with cache_writes :=
            s.cache_writes ++ [("network_test_" ++ toString now, 60, "test_value")] }
    | _, _ => s
  ({ postgres := pg, redis := rd, external_ok := ext_ok, reconnect_attempts := 0 }, s2)

/-- The CPU work of `background_task` (app.py lines 236-240):
    `total = sum of i*i for i in range(100000)`. -/
def load_total : Nat :=
  (List.range 100000).foldl (fun acc i => acc + i * i) 0

/-- `background_task()` (app.py lines 234-244), run on its own thread.
    `setex` is the outcome of the external `redis_client.setex` call.
    Returns the state after the thread finishes together with a flag
    recording whether the cache write was attempted (the guarded `setex`
    call was reached, i.e. `redis_client` was non-None).  When the setex
    call raises, the exception kills only the background thread: no state
    change, nothing propagates. -/
def background_task (now : Nat) (setex : Except String Unit)
    (s : AppState) : AppState × Bool :=
  match s.redis_client with
  | some _ =>
      match setex with
      | .ok _ =>
          ({ s with cache_writes :=
              s.cache_writes ++ [("load_test_" ++ toString now, 300, toString load_total)] },
           true)
      | .error _ => (s, true)
  | none => (s, false)

/-- The JSON document `/api/simulate-load` returns (app.py lines 250-254). -/
structure SimulateLoadResponse where
  message : String
deriving DecidableEq, Repr

/-- `simulate_load()` (app.py lines 228-254): starts `background_task` on
    a fresh thread (`thread.start()`) and returns the acknowledgement at
    once, without joining the thread; the response is built from literals
    only and cannot depend on the task's outcome. -/
def simulate_load (s : AppState) : SimulateLoadResponse × AppState :=
  ({ message := "Load simulation started" }, s)

/-- `simulate_load` followed by the eventual completion of the background
    thread it spawned: the submitter's response paired with the state once
    the task has run. -/
def simulate_load_then_task (now : Nat) (setex : Except String Unit)
    (s : AppState) : SimulateLoadResponse × AppState :=
  let (resp, s1) := simulate_load s
  (resp, (background_task now setex s1).1)

/-- Result of the `__main__` block (app.py lines 278-294). -/
structure StartupResult where
  state : AppState
  server_started : Bool

/-- The `__main__` startup sequence (app.py lines 278-294): call
    `connect_postgres()`, call `connect_redis()` (both return values
    discarded), then reach `app.run(...)` unconditionally. -/
def main_startup (env : String → Option String)
    (pg : PgOutcome) (rd : RedisOutcome) : StartupResult :=
  let s1 := (connect_postgres env pg initialState).2
  let s2 := (connect_redis env rd s1).2
  { state := s2, server_started := true }

/-- One inbound request handled to completion: Flask runs
    `before_request`, then the handler, then `after_request` on the
    response — `after_request` also runs when the handler raised and the
    exception was turned into an error response, so the pair is matched on
    every exit path.  `status` is the response's status code (500 for a
    failed handler). -/
structure ReqPair where
  client : String
  method : String
  endpoint : String
  status : Nat

/-- The metrics effect of one matched request: `before_request` at entry,
    `after_request` at exit. -/
def run_pair (p : ReqPair) (s : AppState) : AppState :=
  after_request p.method p.endpoint p.status (before_request p.client s)

/-- A whole sequence of matched request pairs, in order. -/
def run_pairs (s : AppState) : List ReqPair → AppState
  | [] => s
  | p :: ps => run_pairs (run_pair p s) ps

/-- Every state-mutating operation of the module, with the outcomes of its
    external calls: the two request hooks, the two connectors, and the
    endpoint handlers. -/
inductive Op where
  | beforeReq (client : String)
  | afterReq (method endpoint : String) (status : Nat)
  | connectPg (env : String → Option String) (outcome : PgOutcome)
  | connectRd (env : String → Option String) (outcome : RedisOutcome)
  | healthCheck
  | networkTest (now : Nat) (pg_query redis_probe : Except String Unit) (ext_ok : Bool)
  | simulateLoad
  | backgroundTask (now : Nat) (setex : Except String Unit)

/-- The state transformer of one operation. -/
def step (s : AppState) : Op → AppState
  | .beforeReq c => before_request c s
  | .afterReq m e st => after_request m e st s
  | .connectPg env o => (connect_postgres env o s).2
  | .connectRd env o => (connect_redis env o s).2
  | .healthCheck => s
  | .networkTest now pq rp ext => (network_test now pq rp ext s).2
  | .simulateLoad => (simulate_load s).2
  | .backgroundTask now sx => (background_task now sx s).1

/-- A sequence of operations, run in order. -/
def run_ops (s : AppState) : List Op → AppState
  | [] => s
  | op :: ops => run_ops (step s op) ops

/-!
Model of one prometheus_client counter cell under concurrent `inc()`
calls.  `Counter.labels(...).inc()` mutates the child's value as
`with self._lock: self._value += 1`: the read-modify-write runs under a
per-value mutex.  We model `n` threads that each perform one `inc` on the
same counter identity as three steps — acquire the lock, read the value
into a register, write back the incremented register and release — and
quantify over every interleaving.
-/

/-- Phase of one thread's in-flight `inc()`: not yet started, lock held
    but value not yet read, value read into the local register, or
    finished. -/
inductive IncPhase where
  | idle
  | acquired
  | hasReg (reg : Nat)
  | done
deriving DecidableEq, Repr

/-- The shared counter cell and the `n` incrementing threads: the stored
    value, the mutex owner, and each thread's phase. -/
structure CounterSystem (n : Nat) where
  value : Nat
  lock : Option (Fin n)
  phase : Fin n → IncPhase

/-- All threads about to run, counter at zero, mutex free. -/
def counterInit (n : Nat) : CounterSystem n :=
  { value := 0, lock := none, phase := fun _ => .idle }

/-- One scheduler step: some thread advances its `inc` by one phase.
    Acquiring requires the mutex to be free; reading and writing require
    holding it; the write releases it. -/
inductive CStep {n : Nat} : CounterSystem n → CounterSystem n → Prop where
  | acquire (s : CounterSystem n) (t : Fin n) :
      s.lock = none → s.phase t = .idle →
      CStep s { s with lock := some t, phase := Function.update s.phase t .acquired }
  | read (s : CounterSystem n) (t : Fin n) :
      s.lock = some t → s.phase t = .acquired →
      CStep s { s with phase := Function.update s.phase t (.hasReg s.value) }
  | write (s : CounterSystem n) (t : Fin n) (r : Nat) :
      s.lock = some t → s.phase t = .hasReg r →
      CStep s { value := r + 1, lock := none, phase := Function.update s.phase t .done }

/-- Any finite interleaving of the threads' steps. -/
def CSteps {n : Nat} : CounterSystem n → CounterSystem n → Prop :=
  Relation.ReflTransGen CStep

/-- Inductive invariant: the stored value counts the finished threads; a
    thread that holds an intermediate phase owns the mutex; a register
    read under the mutex still matches the stored value. -/
def CounterInv {n : Nat} (s : CounterSystem n) : Prop :=
  s.value = (Finset.univ.filter fun t => s.phase t = .done).card
  ∧ (∀ t, s.phase t = .acquired → s.lock = some t)
  ∧ (∀ t r, s.phase t = .hasReg r → s.lock = some t ∧ r = s.value)

/-- Module state after a `connect_redis` call whose `redis.Redis(...)`
    constructor succeeded and whose `ping()` raised `m`. -/
def after_ping_failure (env : String → Option String) (m : String) (s : AppState) : AppState :=
  (connect_redis env (.ping_raise m) s).2

/-- Initial module state with an open PostgreSQL connection (as after a
    successful `connect_postgres` in an empty environment). -/
def pgConnectedState : AppState :=
  (connect_postgres (fun _ => none) .ok initialState).2

/-- Initial module state with a constructed redis client (as after a
    successful `connect_redis` in an empty environment). -/
def rdConnectedState : AppState :=
  (connect_redis (fun _ => none) .ok initialState).2

/-- A concrete two-thread schedule for the counter model: thread 0 runs
    its whole `inc`, then thread 1 does.  These are the six successive
    states. -/
def cstate0 : CounterSystem 2 := counterInit 2

def cstate1 : CounterSystem 2 :=
  { cstate0 with lock := some 0, phase := Function.update cstate0.phase 0 .acquired }

def cstate2 : CounterSystem 2 :=
  { cstate1 with phase := Function.update cstate1.phase 0 (.hasReg cstate1.value) }

def cstate3 : CounterSystem 2 :=
  { value := 0 + 1, lock := none, phase := Function.update cstate2.phase 0 .done }

def cstate4 : CounterSystem 2 :=
  { cstate3 with lock := some 1, phase := Function.update cstate3.phase 1 .acquired }

def cstate5 : CounterSystem 2 :=
  { cstate4 with phase := Function.update cstate4.phase 1 (.hasReg cstate4.value) }

def cstate6 : CounterSystem 2 :=
  { value := 1 + 1, lock := none, phase := Function.update cstate5.phase 1 .done }

theorem filter_done_update_ne {n : Nat} (ph : Fin n → IncPhase) (t : Fin n)
    (p : IncPhase) (h1 : ph t ≠ .done) (h2 : p ≠ .done) :
    (Finset.univ.filter fun u => Function.update ph t p u = .done)
      = Finset.univ.filter fun u => ph u = .done := by
  ext u
  simp only [Finset.mem_filter, Finset.mem_univ, true_and]
  by_cases hu : u = t
  · subst hu
    rw [Function.update_same]
    exact iff_of_false h2 h1
  · rw [Function.update_noteq hu]

theorem filter_done_update_done {n : Nat} (ph : Fin n → IncPhase) (t : Fin n) :
    (Finset.univ.filter fun u => Function.update ph t .done u = .done)
      = insert t (Finset.univ.filter fun u => ph u = .done) := by
  ext u
  simp only [Finset.mem_filter, Finset.mem_univ, true_and, Finset.mem_insert]
  by_cases hu : u = t
  · subst hu
    rw [Function.update_same]
    simp
  · rw [Function.update_noteq hu]
    simp [hu]

theorem counterInv_init (n : Nat) : CounterInv (counterInit n) := by
  refine ⟨?_, ?_, ?_⟩
  · simp [counterInit]
  · intro t h
    simp [counterInit] at h
  · intro t r h
    simp [counterInit] at h

theorem counterInv_step {n : Nat} {s s' : CounterSystem n}
    (h : CStep s s') (inv : CounterInv s) : CounterInv s' := by
  obtain ⟨hval, hacq, hreg⟩ := inv
  cases h with
  | acquire t hlock hph =>
      refine ⟨?_, ?_, ?_⟩
      · show s.value =
          (Finset.univ.filter fun u => Function.update s.phase t .acquired u = .done).card
        rw [filter_done_update_ne s.phase t .acquired
              (by rw [hph]; intro hc; exact IncPhase.noConfusion hc)
              (by intro hc; exact IncPhase.noConfusion hc)]
        exact hval
      · intro u hu
        replace hu : Function.update s.phase t .acquired u = .acquired := hu
        show some t = some u
        by_cases hut : u = t
        · rw [hut]
        · rw [Function.update_noteq hut] at hu
          have h2 := hacq u hu
          rw [hlock] at h2
          exact Option.noConfusion h2
      · intro u r hu
        replace hu : Function.update s.phase t .acquired u = .hasReg r := hu
        by_cases hut : u = t
        · subst hut
          rw [Function.update_same] at hu
          exact IncPhase.noConfusion hu
        · rw [Function.update_noteq hut] at hu
          have h2 := (hreg u r hu).1
          rw [hlock] at h2
          exact Option.noConfusion h2
  | read t hlock hph =>
      refine ⟨?_, ?_, ?_⟩
      · show s.value =
          (Finset.univ.filter fun u =>
            Function.update s.phase t (.hasReg s.value) u = .done).card
        rw [filter_done_update_ne s.phase t (.hasReg s.value)
              (by rw [hph]; intro hc; exact IncPhase.noConfusion hc)
              (by intro hc; exact IncPhase.noConfusion hc)]
        exact hval
      · intro u hu
        replace hu : Function.update s.phase t (.hasReg s.value) u = .acquired := hu
        show s.lock = some u
        by_cases hut : u = t
        · subst hut
          rw [Function.update_same] at hu
          exact IncPhase.noConfusion hu
        · rw [Function.update_noteq hut] at hu
          exact hacq u hu
      · intro u r hu
        replace hu : Function.update s.phase t (.hasReg s.value) u = .hasReg r := hu
        show s.lock = some u ∧ r = s.value
        by_cases hut : u = t
        · subst hut
          rw [Function.update_same] at hu
          injection hu with h3
          exact ⟨hlock, h3.symm⟩
        · rw [Function.update_noteq hut] at hu
          have h2 := (hreg u r hu).1
          rw [hlock] at h2
          injection h2 with h3
          exact absurd h3.symm hut
  | write t r hlock hph =>
      have hr : r = s.value := (hreg t r hph).2
      refine ⟨?_, ?_, ?_⟩
      · show r + 1 =
          (Finset.univ.filter fun u => Function.update s.phase t .done u = .done).card
        rw [filter_done_update_done s.phase t,
            Finset.card_insert_of_not_mem (by
              simp only [Finset.mem_filter, Finset.mem_univ, true_and]
              rw [hph]
              intro hc
              exact IncPhase.noConfusion hc)]
        rw [hr, hval]
      · intro u hu
        replace hu : Function.update s.phase t .done u = .acquired := hu
        show (none : Option (Fin n)) = some u
        by_cases hut : u = t
        · subst hut
          rw [Function.update_same] at hu
          exact IncPhase.noConfusion hu
        · rw [Function.update_noteq hut] at hu
          have h2 := hacq u hu
          rw [hlock] at h2
          injection h2 with h3
          exact absurd h3.symm hut
      · intro u r2 hu
        replace hu : Function.update s.phase t .done u = .hasReg r2 := hu
        by_cases hut : u = t
        · subst hut
          rw [Function.update_same] at hu
          exact IncPhase.noConfusion hu
        · rw [Function.update_noteq hut] at hu
          have h2 := (hreg u r2 hu).1
          rw [hlock] at h2
          injection h2 with h3
          exact absurd h3.symm hut

theorem counterInv_steps {n : Nat} {s : CounterSystem n}
    (h : CSteps (counterInit n) s) : CounterInv s := by
  induction h with
  | refl => exact counterInv_init n
  | tail hab hbc ih => exact counterInv_step hbc ih

/-- Claim C1 counterexample: in the initial state the postgres dependency
    is not Up, yet `health_check` still reports overall status
    `'healthy'` — the endpoint hardcodes the string (app.py line 105), so
    the claimed "Healthy iff both entries Up, Degraded otherwise" is
    false at this state. -/
theorem health_status_iff_counterexample :
    (health_check initialState).status = "healthy"
    ∧ initialState.network_data.service_health.postgres = false :=
  ⟨rfl, rfl⟩

/-- Claim C1 (amended): the health endpoint's overall status is the
    constant string `'healthy'` for every state of the service-health
    map; the per-dependency Up/Down states are reported verbatim in the
    `services` field, and the overall verdict never reflects them. -/
theorem health_status_always_healthy (s : AppState) :
    (health_check s).status = "healthy"
    ∧ (health_check s).services = s.network_data.service_health :=
  ⟨rfl, rfl⟩

/-- Claim C2 counterexample: one completed request leaves the request
    counter incremented (the finish step did run) while the duration
    histogram has received no observation — `REQUEST_DURATION` is
    declared at app.py line 17 and never observed, so "records the
    request's elapsed wall time into the duration histogram" is false. -/
theorem finish_histogram_counterexample :
    (after_request "GET" "health_check" 200 initialState).metrics.duration_observations = []
    ∧ (after_request "GET" "health_check" 200 initialState).metrics.http_requests_total
        { method := "GET", endpoint := "health_check", status := 200 } = 1 :=
  ⟨rfl, rfl⟩

/-- Claim C2 (amended): for every completed request, the finish step
    decrements the active-requests gauge and increments exactly the
    request counter labeled by method/endpoint/status, but it records
    nothing into the duration histogram (no elapsed time is measured or
    observed). -/
theorem after_request_effects (m e : String) (st : Nat) (s : AppState) :
    (after_request m e st s).metrics.active_connections
        = s.metrics.active_connections - 1
    ∧ (after_request m e st s).metrics.duration_observations
        = s.metrics.duration_observations
    ∧ (∀ l, (after_request m e st s).metrics.http_requests_total l
        = if l = { method := m, endpoint := e, status := st } then
            s.metrics.http_requests_total { method := m, endpoint := e, status := st } + 1
          else s.metrics.http_requests_total l) :=
  ⟨rfl, rfl, fun _ => rfl⟩

/-- Claim C3: both connectors are total (the whole body sits in
    try/except), return True exactly when the connection — and for redis
    the ping — succeeds, and the dependency's health-map entry and
    connection gauge always match the returned result: True/1 on success,
    False/0 on failure. -/
theorem connect_result_semantics (env : String → Option String)
    (po : PgOutcome) (ro : RedisOutcome) (s : AppState) :
    ((connect_postgres env po s).1 = true ↔ po = .ok)
    ∧ (connect_postgres env po s).2.network_data.service_health.postgres
        = (connect_postgres env po s).1
    ∧ (connect_postgres env po s).2.metrics.database_connections "postgres"
        = (if (connect_postgres env po s).1 then 1 else 0)
    ∧ ((connect_redis env ro s).1 = true ↔ ro = .ok)
    ∧ (connect_redis env ro s).2.network_data.service_health.redis
        = (connect_redis env ro s).1
    ∧ (connect_redis env ro s).2.metrics.database_connections "redis"
        = (if (connect_redis env ro s).1 then 1 else 0) := by
  cases po <;> cases ro <;> refine ⟨?_, rfl, rfl, ?_, rfl, rfl⟩ <;>
    simp [connect_postgres, connect_redis]

/-- Claim C4 counterexample: in the initial state the postgres connection
    is absent, so the claim demands exactly one reconnect attempt — but
    `network_test` performs zero connect calls (its body, app.py lines
    176-226, never invokes a connector). -/
theorem network_test_reconnect_counterexample :
    initialState.postgres_conn = none
    ∧ (network_test 0 (Except.ok ()) (Except.ok ()) true initialState).1.reconnect_attempts = 0 :=
  ⟨rfl, rfl⟩

/-- Claim C4 (amended): the liveness check attempts no reconnect at all:
    when a dependency's connection is absent it immediately reports
    `not_connected`, when the probe fails it reports `error`, and the
    stored connections and health map are left untouched. -/
theorem network_test_no_reconnect (now : Nat) (pq rp : Except String Unit)
    (ext : Bool) (s : AppState) :
    (network_test now pq rp ext s).1.reconnect_attempts = 0
    ∧ (s.postgres_conn = none →
        (network_test now pq rp ext s).1.postgres = .not_connected)
    ∧ (∀ conn e, s.postgres_conn = some conn → pq = .error e →
        (network_test now pq rp ext s).1.postgres = .error e)
    ∧ (s.redis_client = none →
        (network_test now pq rp ext s).1.redis = .not_connected)
    ∧ (∀ cl e, s.redis_client = some cl → rp = .error e →
        (network_test now pq rp ext s).1.redis = .error e)
    ∧ (network_test now pq rp ext s).2.postgres_conn = s.postgres_conn
    ∧ (network_test now pq rp ext s).2.redis_client = s.redis_client
    ∧ (network_test now pq rp ext s).2.network_data = s.network_data := by
  rcases s with ⟨nd, pc, rc, ms, cw⟩
  rcases pc with _ | conn <;> rcases rc with _ | cl <;>
    rcases pq with e1 | u1 <;> rcases rp with e2 | u2 <;>
    refine ⟨rfl, ?_, ?_, ?_, ?_, rfl, rfl, rfl⟩ <;> intros <;>
    simp_all [network_test]

/-- Claim C4 witness: the amended theorem applied at concrete states —
    absent connection reports `not_connected` with zero reconnects, and a
    failing probe on an open connection reports `error`. -/
theorem network_test_no_reconnect_witness :
    (network_test 0 (Except.ok ()) (Except.ok ()) true initialState).1.reconnect_attempts = 0
    ∧ (network_test 0 (Except.ok ()) (Except.ok ()) true initialState).1.postgres = .not_connected
    ∧ (network_test 0 (Except.error "connection refused") (Except.ok ()) true
        pgConnectedState).1.postgres = .error "connection refused" :=
  ⟨(network_test_no_reconnect 0 (Except.ok ()) (Except.ok ()) true initialState).1,
   (network_test_no_reconnect 0 (Except.ok ()) (Except.ok ()) true initialState).2.1 rfl,
   (network_test_no_reconnect 0 (Except.error "connection refused") (Except.ok ()) true
      pgConnectedState).2.2.1 (pg_conn_of_env fun _ => none) "connection refused" rfl rfl⟩

/-- Claim C5: startup always completes and reaches `app.run` whatever the
    two connect outcomes are (their boolean results are discarded), and a
    failed dependency is left marked Down (False) in the health map while
    a successful one is marked Up. -/
theorem startup_always_serves (env : String → Option String)
    (po : PgOutcome) (ro : RedisOutcome) :
    (main_startup env po ro).server_started = true
    ∧ (po = .ok →
        (main_startup env po ro).state.network_data.service_health.postgres = true)
    ∧ (po ≠ .ok →
        (main_startup env po ro).state.network_data.service_health.postgres = false)
    ∧ (ro = .ok →
        (main_startup env po ro).state.network_data.service_health.redis = true)
    ∧ (ro ≠ .ok →
        (main_startup env po ro).state.network_data.service_health.redis = false) := by
  cases po <;> cases ro <;> refine ⟨rfl, ?_, ?_, ?_, ?_⟩ <;> intro h <;>
    first
      | rfl
      | exact absurd rfl h
      | exact PgOutcome.noConfusion h
      | exact RedisOutcome.noConfusion h

/-- Claim C5 witness: startup with an invalid postgres configuration and
    a healthy redis still serves, reporting postgres Down and redis Up. -/
theorem startup_always_serves_witness :
    (main_startup (fun _ => none) (.raise "bad password") .ok).server_started = true
    ∧ (main_startup (fun _ => none) (.raise "bad password") .ok).state.network_data.service_health.postgres = false
    ∧ (main_startup (fun _ => none) (.raise "bad password") .ok).state.network_data.service_health.redis = true :=
  ⟨(startup_always_serves (fun _ => none) (.raise "bad password") .ok).1,
   (startup_always_serves (fun _ => none) (.raise "bad password") .ok).2.2.1 (by decide),
   (startup_always_serves (fun _ => none) (.raise "bad password") .ok).2.2.2.1 rfl⟩

/-- Claim C6: over any sequence of matched start/finish pairs — each pair
    is `before_request` then `after_request`, which Flask also runs when
    the handler failed and its exception became an error response, the
    status then being 500 — the active-requests gauge returns exactly to
    its value before the sequence. -/
theorem active_gauge_balanced (s : AppState) (ps : List ReqPair) :
    (run_pairs s ps).metrics.active_connections = s.metrics.active_connections := by
  induction ps generalizing s with
  | nil => rfl
  | cons p ps ih =>
      show (run_pairs (run_pair p s) ps).metrics.active_connections = _
      rw [ih (run_pair p s)]
      show s.metrics.active_connections + 1 - 1 = s.metrics.active_connections
      omega

theorem step_clients_subset (s : AppState) (op : Op) :
    s.network_data.unique_clients ⊆ (step s op).network_data.unique_clients := by
  cases op with
  | beforeReq c => exact Finset.subset_insert _ _
  | afterReq m e st => exact Finset.Subset.refl _
  | connectPg env o => cases o <;> exact Finset.Subset.refl _
  | connectRd env o => cases o <;> exact Finset.Subset.refl _
  | healthCheck => exact Finset.Subset.refl _
  | networkTest now pq rp ext =>
      rcases s with ⟨nd, pc, rc, ms, cw⟩
      rcases rc with _ | cl <;> rcases rp with e | u <;> exact Finset.Subset.refl _
  | simulateLoad => exact Finset.Subset.refl _
  | backgroundTask now sx =>
      rcases s with ⟨nd, pc, rc, ms, cw⟩
      rcases rc with _ | cl <;> rcases sx with e | u <;> exact Finset.Subset.refl _

theorem run_ops_clients_subset (ops : List Op) (s : AppState) :
    s.network_data.unique_clients ⊆ (run_ops s ops).network_data.unique_clients := by
  induction ops generalizing s with
  | nil => exact Finset.Subset.refl _
  | cons op ops ih => exact (step_clients_subset s op).trans (ih (step s op))

/-- Claim C7: the observed-client set grows monotonically: `before_request`
    inserts the request's client identifier, no operation of the module
    ever removes an element, so after any sequence of operations the set
    is a superset of what it was and its cardinality has not decreased. -/
theorem observed_clients_monotone (s : AppState) (ops : List Op) (c : String) :
    s.network_data.unique_clients ⊆ (run_ops s ops).network_data.unique_clients
    ∧ s.network_data.unique_clients.card ≤ (run_ops s ops).network_data.unique_clients.card
    ∧ c ∈ (before_request c s).network_data.unique_clients :=
  ⟨run_ops_clients_subset ops s,
   Finset.card_le_card (run_ops_clients_subset ops s),
   Finset.mem_insert_self c _⟩

/-- Claim C8: `simulate_load` answers with the fixed acknowledgement
    whatever the background task later does; when the cache dependency is
    absent the task writes nothing (the result is dropped), and a failing
    `setex` dies inside the background thread leaving the state untouched
    — neither outcome ever reaches the submitter. -/
theorem simulate_load_fire_and_forget (now : Nat) (sx : Except String Unit)
    (s : AppState) :
    (simulate_load s).1 = { message := "Load simulation started" }
    ∧ (simulate_load_then_task now sx s).1 = { message := "Load simulation started" }
    ∧ (s.redis_client = none →
        (simulate_load_then_task now sx s).2.cache_writes = s.cache_writes)
    ∧ (∀ e, sx = .error e → (simulate_load_then_task now sx s).2 = s) := by
  rcases s with ⟨nd, pc, rc, ms, cw⟩
  rcases rc with _ | cl <;> rcases sx with e1 | u1 <;>
    refine ⟨rfl, rfl, ?_, ?_⟩ <;> intros <;>
    simp_all [simulate_load_then_task, simulate_load, background_task]

/-- Claim C8 witness: with the cache absent the completed task left the
    write log unchanged, and with the cache present but failing the whole
    state survived untouched. -/
theorem simulate_load_fire_and_forget_witness :
    (simulate_load_then_task 0 (Except.error "redis unavailable") initialState).2.cache_writes
      = initialState.cache_writes
    ∧ (simulate_load_then_task 0 (Except.error "redis unavailable") rdConnectedState).2
      = rdConnectedState :=
  ⟨(simulate_load_fire_and_forget 0 (Except.error "redis unavailable") initialState).2.2.1 rfl,
   (simulate_load_fire_and_forget 0 (Except.error "redis unavailable") rdConnectedState).2.2.2
     "redis unavailable" rfl⟩

/-- Claim C9: no concurrent increment is lost: for every `n` and every
    interleaving of `n` threads each performing one mutex-protected
    `inc()` on the same counter identity, once all threads have finished
    the exported value is exactly `n`. -/
theorem counter_increments_not_lost (n : Nat) (s : CounterSystem n)
    (h : CSteps (counterInit n) s) (hdone : ∀ t, s.phase t = .done) :
    s.value = n := by
  obtain ⟨hval, -, -⟩ := counterInv_steps h
  rw [hval]
  have hfilter : (Finset.univ.filter fun t => s.phase t = .done) = Finset.univ := by
    ext t
    simp [hdone t]
  rw [hfilter, Finset.card_univ, Fintype.card_fin]

theorem counter_trace : CSteps (counterInit 2) cstate6 :=
  Relation.ReflTransGen.head (CStep.acquire cstate0 0 rfl rfl)
    (Relation.ReflTransGen.head (CStep.read cstate1 0 rfl (by decide))
      (Relation.ReflTransGen.head (CStep.write cstate2 0 0 rfl (by decide))
        (Relation.ReflTransGen.head (CStep.acquire cstate3 1 rfl (by decide))
          (Relation.ReflTransGen.head (CStep.read cstate4 1 rfl (by decide))
            (Relation.ReflTransGen.head (CStep.write cstate5 1 1 rfl (by decide))
              Relation.ReflTransGen.refl)))))

/-- Claim C9 witness: a concrete complete two-thread interleaving ends
    with the counter at exactly 2. -/
theorem counter_increments_not_lost_witness : cstate6.value = 2 :=
  counter_increments_not_lost 2 cstate6 counter_trace (by decide)

/-- Claim C10: after a `connect_redis` whose ping raised, the module
    keeps the freshly constructed client object (not None); consequently
    `network_test` takes the attempt-operations branch — reporting
    `connected` or `error` according to the probe outcome, never
    `not_connected` — and the background task still attempts its cache
    write. -/
theorem redis_ping_failure_keeps_client (env : String → Option String)
    (m : String) (s : AppState) (now : Nat) (pq : Except String Unit)
    (ext : Bool) (sx : Except String Unit) :
    (after_ping_failure env m s).redis_client = some (redis_client_of_env env)
    ∧ (∀ rp, (network_test now pq rp ext (after_ping_failure env m s)).1.redis
        = match rp with
          | .ok _ => TestStatus.connected
          | .error e => TestStatus.error e)
    ∧ (background_task now sx (after_ping_failure env m s)).2 = true := by
  refine ⟨rfl, ?_, ?_⟩
  · intro rp
    cases rp <;> rfl
  · cases sx <;> rfl

end PyApi
